import Mathlib

/-!
Verification of the Cobalt Strike MCP server's session-client and
data-view-handler layer (`cs_client.py`, `cs_resources.py`, `cs_server.py`)
against its specification.

The Python code is shallowly embedded: JSON values become the inductive
`JVal`; the `CobaltStrikeClient` instance state becomes the record
`CSState`; each method becomes a pure function threading that state, with
the HTTP environment's behaviour (response status, body, raised
exceptions) passed in as explicit outcome values.  Python object identity
for the lazily constructed `httpx.AsyncClient` is modelled by a fresh-id
counter carried in the state.
-/

/-- A parsed JSON value, as produced by `response.json()` in the Python
code.  Numbers are modelled as integers: the only operation the code
performs on a non-string JSON scalar is Python truthiness, which for the
claims at hand only distinguishes zero from non-zero. -/
inductive JVal where
  | jnull
  | jbool (b : Bool)
  | jnum (n : Int)
  | jstr (s : String)
  | jarr (l : List JVal)
  | jobj (fields : List (String × JVal))
deriving Repr

/-- Python truthiness test, negated: `not v` is true exactly for the falsy
JSON-decoded values `None`, `False`, `0`, `""`, `[]`, and `\x7b\x7d`. -/
def JVal.falsy : JVal → Bool
  | .jnull => true
  | .jbool b => !b
  | .jnum n => n == 0
  | .jstr s => s == ""
  | .jarr l => l.isEmpty
  | .jobj fields => fields.isEmpty

/-- Python `str()` / f-string rendering of a JSON-decoded value, used in
`f"Bearer \x7bself._token\x7d"`.  Scalars follow Python exactly; the
container cases are abbreviated because no code path in the claims ever
formats a container token. -/
def JVal.pyFormat : JVal → String
  | .jstr s => s
  | .jnum n => toString n
  | .jbool true => "True"
  | .jbool false => "False"
  | .jnull => "None"
  | .jarr _ => "[...]"
  | .jobj _ => "\x7b...\x7d"

/-- Python `dict.get k` on a decoded JSON object, as in
`data.get("access_token")`. -/
def dictGet (k : String) : List (String × JVal) → Option JVal
  | [] => none
  | p :: rest => if p.1 = k then some p.2 else dictGet k rest

/-- Python `s.strip()`: drop leading and trailing whitespace. -/
def pyStrip (s : String) : String :=
  String.mk (((s.data.dropWhile Char.isWhitespace).reverse.dropWhile
    Char.isWhitespace).reverse)

/-- Python `s.rstrip("/")`: drop every trailing slash. -/
def rstripSlash (s : String) : String :=
  String.mk ((s.data.reverse.dropWhile (fun c => c == '/')).reverse)

/-- httpx `Response.is_success`, the condition under which
`raise_for_status` does not raise: a 2xx status code. -/
def is2xx (status : Nat) : Bool :=
  decide (200 ≤ status) && decide (status < 300)

/-- The `USER_AGENT` module constant of `cs_client.py`. -/
def USER_AGENT : String := "cs-mcp/1.0"

/-- The lazily constructed shared `httpx.AsyncClient`.  The `id` field
models Python object identity: each construction uses a fresh id drawn
from the session state's counter. -/
structure HClient where
  id : Nat
  base_url : String
  verify : Bool
  timeout : Rat
  headers : List (String × String)
deriving Repr, DecidableEq

/-- The instance state of `CobaltStrikeClient`.  `token` and `client`
model the `_token` and `_client` attributes (Lean identifiers cannot
comfortably start with an underscore); `nextId` is the fresh-id counter
for modelling object identity of constructed clients.  The `timeout`
float is modelled as a rational: the code only stores and forwards it. -/
structure CSState where
  base_url : String
  verify_tls : Bool
  timeout : Rat
  token : Option JVal
  client : Option HClient
  nextId : Nat
deriving Repr

/-- `CobaltStrikeClient.__init__`: strips trailing slashes from the base
URL and starts with no token and no client. -/
def initState (base_url : String) (verify_tls : Bool) (timeout : Rat) : CSState :=
  ⟨rstripSlash base_url, verify_tls, timeout, none, none, 0⟩

/-- The environment's response to the login POST in `authenticate`: either
an HTTP response (status, body text, the message the raised
`HTTPStatusError` would render, and the JSON-decoded body) or a raised
transport error.  A 2xx body that fails to parse as JSON raises an error
the method does not catch; no claim exercises that path, so it is not an
outcome here. -/
inductive AuthOutcome where
  | response (status : Nat) (bodyText : String) (statusExcMsg : String)
      (json : List (String × JVal))
  | transportError (msg : String)

/-- Error message for a rejected or tokenless login response
(`RuntimeError` in the source, `AuthenticationError` in the spec). -/
def missingTokenMsg : String :=
  "Authentication response did not include \x27access_token\x27."

/-- `CobaltStrikeClient.authenticate`: POSTs the credentials on a
short-lived client, raises on non-2xx (carrying status and stripped body
text, or the exception's own message when the stripped body is empty),
rejects a falsy `access_token` (absent, empty, null, ...), and on success
stores the token.  Returns the updated state with the result. -/
def authenticate (s : CSState) (o : AuthOutcome) : CSState × Except String JVal :=
  match o with
  | .transportError msg =>
      (s, .error ("Authentication request failed: " ++ msg))
  | .response status body excMsg json =>
      if is2xx status then
        match dictGet "access_token" json with
        | none => (s, .error missingTokenMsg)
        | some tok =>
            if tok.falsy then
              (s, .error missingTokenMsg)
            else
              (⟨s.base_url, s.verify_tls, s.timeout, some tok, s.client, s.nextId⟩,
                .ok tok)
      else
        let detail := pyStrip body
        (s, .error ("Authentication failed with status " ++ toString status ++ ": " ++
          (if detail = "" then excMsg else detail)))

/-- Error message raised by `get_authenticated_client` when no token is
stored (`NotAuthenticatedError` in the spec). -/
def notAuthMsg : String := "Not authenticated. Call authenticate() first."

/-- The default header dictionary built for the shared client. -/
def authHeaders (tok : JVal) : List (String × String) :=
  [("Authorization", "Bearer " ++ tok.pyFormat),
   ("User-Agent", USER_AGENT),
   ("Accept", "application/json")]

/-- `CobaltStrikeClient.get_authenticated_client`: fails when the stored
token is absent or falsy; otherwise returns the shared client, building it
on first call from the construction-time base URL, TLS flag and timeout
and the bearer header, and caching it. -/
def get_authenticated_client (s : CSState) : CSState × Except String HClient :=
  match s.token with
  | none => (s, .error notAuthMsg)
  | some tok =>
      if tok.falsy then
        (s, .error notAuthMsg)
      else
        match s.client with
        | some c => (s, .ok c)
        | none =>
            let c : HClient :=
              ⟨s.nextId, s.base_url, s.verify_tls, s.timeout, authHeaders tok⟩
            (⟨s.base_url, s.verify_tls, s.timeout, s.token, some c, s.nextId + 1⟩,
              .ok c)

/-- `CobaltStrikeClient.close`: releases the shared client if one exists
and clears the reference; the stored token is untouched. -/
def close (s : CSState) : CSState :=
  ⟨s.base_url, s.verify_tls, s.timeout, s.token, none, s.nextId⟩

/-- The outcome of one `client.get` call inside a data-view handler:
either the request completed and (where the handler parses it) the body
decoded to `data`, or an exception was raised somewhere in the request or
the parse. -/
inductive EpOutcome where
  | success (status : Nat) (data : JVal)
  | failure (msg : String)

/-- One per-endpoint entry of the dashboard statistics dictionary. -/
structure StatEntry where
  count : String
  status : String
  error_code : Option String
  error : Option String
deriving Repr, DecidableEq

/-- The loop body of `dashboard_stats_resource` for one endpoint: a 200
response with a JSON list yields its length as `count` and status
`available` (non-list data counts as 1); any other status yields count
`"0"`, status `unavailable` and the status code; a raised exception
yields count `"0"`, status `error` and the exception text. -/
def endpointStat (o : EpOutcome) : StatEntry :=
  match o with
  | .success status data =>
      if status == 200 then
        match data with
        | .jarr l => ⟨toString l.length, "available", none, none⟩
        | _ => ⟨"1", "available", none, none⟩
      else
        ⟨"0", "unavailable", some (toString status), none⟩
  | .failure msg => ⟨"0", "error", none, some msg⟩

/-- The three per-endpoint entries of the dashboard statistics response,
in the loop's iteration order.  The handler also emits a constant
`dashboard` header entry, which carries no claim content and is elided. -/
structure DashboardStats where
  beacons : StatEntry
  listeners : StatEntry
  tasks : StatEntry
deriving Repr, DecidableEq

/-- `dashboard_stats_resource`: queries the beacons, listeners and tasks
endpoints independently, each inside its own try/except, and collects one
`StatEntry` per endpoint. -/
def dashboard_stats_resource (beacons listeners tasks : EpOutcome) : DashboardStats :=
  ⟨endpointStat beacons, endpointStat listeners, endpointStat tasks⟩

/-- The outcome of one `client.get` call whose body is read as raw text
(`response.text`): a response with status and text, or a raised
exception. -/
inductive GetOutcome where
  | resp (status : Nat) (text : String)
  | exn (msg : String)

/-- The result of `server_info_resource`, reduced to its variable parts:
the success envelope's version fields, local IP and optional system
information, or the handler-boundary error envelope. -/
inductive SIResult where
  | envelope (version_status : String) (api_status : String)
      (local_ip : Option String) (system_information : Option String)
  | exnEnvelope (msg : String)
deriving Repr, DecidableEq

/-- `server_info_resource`: queries `/api/v1/config/localip` (a 200 fills
the version fields, anything else marks them unknown/limited), then
queries `/api/v1/config/systeminformation` and attaches its text only on
a 200.  Both calls run inside the single handler-boundary try/except, so
an exception raised by either one produces the error envelope. -/
def server_info_resource (localip sysinfo : GetOutcome) : SIResult :=
  match localip with
  | .exn m => .exnEnvelope m
  | .resp st t =>
      match sysinfo with
      | .exn m => .exnEnvelope m
      | .resp st2 t2 =>
          let sysinfoField := if st2 == 200 then some t2 else none
          if st == 200 then
            .envelope "available" "operational" (some t) sysinfoField
          else
            .envelope "unknown" "limited" none sysinfoField

/-- The result of `recent_activity_resource`: the activity summary (shown
and available counts plus the truncated activities), the non-200 error
envelope with its status code, or the exception envelope. -/
inductive RAResult where
  | summary (total_tasks_shown : Nat) (total_tasks_available : Nat) (activities : JVal)
  | fetchError (status_code : Nat)
  | exnError (msg : String)
deriving Repr

/-- Python `len()` on a decoded JSON value as the handler applies it:
only ever reached on lists here. -/
def jlen : JVal → Nat
  | .jarr l => l.length
  | _ => 0

/-- `recent_activity_resource`: on a 200 response whose body is a JSON
list, truncates to the first 50 items (`tasks_data[:50]`) and reports
`len(recent_tasks)` as shown and `len(tasks_data)` as available;
non-list data passes through with both counts 1; a non-200 status or a
raised exception yields the corresponding error envelope. -/
def recent_activity_resource (o : EpOutcome) : RAResult :=
  match o with
  | .failure msg => .exnError msg
  | .success status data =>
      if status == 200 then
        match data with
        | .jarr l => .summary (l.take 50).length l.length (.jarr (l.take 50))
        | d => .summary 1 1 d
      else
        .fetchError status

/-- Python `path.startswith("/")`. -/
def startsWithSlash (s : String) : Bool :=
  match s.data with
  | [] => false
  | c :: _ => c == '/'

/-- Python `path.endswith("/")`, used only to state the no-trailing-slash
property. -/
def endsWithSlash (s : String) : Bool :=
  match s.data.reverse with
  | [] => false
  | c :: _ => c == '/'

/-- The path normalization in `CobaltStrikeMCPServer.run`: prefix a slash
when missing, strip trailing slashes, and fall back to `"/"` when the
result is empty (Python `or "/"` on a falsy empty string). -/
def normalizePath (path : String) : String :=
  let p := if startsWithSlash path then path else "/" ++ path
  let q := rstripSlash p
  if q = "" then "/" else q

/-- A concrete session state for witnesses: a freshly constructed client. -/
def demoState : CSState := initState "https://cs.example:50050" true 30

/-- A concrete successful login response for witnesses. -/
def demoLogin : AuthOutcome :=
  .response 200 "" "" [("access_token", .jstr "tkn")]

/-- Inversion of a successful `authenticate`: the returned state stores
exactly the (non-falsy) token and changes nothing else. -/
theorem authenticate_ok_inv (s : CSState) (o : AuthOutcome) (tok : JVal)
    (h : (authenticate s o).2 = Except.ok tok) :
    (authenticate s o).1 =
      ⟨s.base_url, s.verify_tls, s.timeout, some tok, s.client, s.nextId⟩ ∧
    tok.falsy = false := by
  cases o with
  | transportError m => simp [authenticate] at h
  | response st body excMsg json =>
      cases h2 : is2xx st with
      | false => simp [authenticate, h2] at h
      | true =>
          rcases hd : dictGet "access_token" json with _ | v
          · simp [authenticate, h2, hd] at h
          · cases hf : v.falsy with
            | true => simp [authenticate, h2, hd, hf] at h
            | false =>
                simp [authenticate, h2, hd, hf] at h
                subst h
                exact ⟨by simp [authenticate, h2, hd, hf], hf⟩

/-- C8: in every session state (client never constructed, constructed, or
already closed), calling `close` twice does not raise (it is a total
function), leaves the client reference cleared after each call, and
leaves the stored token untouched both times. -/
theorem close_idempotent_frame (s : CSState) :
    (close s).client = none ∧ (close (close s)).client = none ∧
    (close s).token = s.token ∧ (close (close s)).token = s.token ∧
    close (close s) = close s :=
  ⟨rfl, rfl, rfl, rfl, rfl⟩

/-- C6: on a 200 tasks response with a JSON list of n items, the
recent-activity handler returns the first 50 items with
`total_tasks_available` = n and `total_tasks_shown` = 50 when n is at
least 50, and all n items with both counts n when n < 50. -/
theorem recent_activity_truncation (l : List JVal) :
    (50 ≤ l.length →
      recent_activity_resource (.success 200 (.jarr l)) =
        .summary 50 l.length (.jarr (l.take 50))) ∧
    (l.length < 50 →
      recent_activity_resource (.success 200 (.jarr l)) =
        .summary l.length l.length (.jarr l)) := by
  constructor
  · intro h
    simp [recent_activity_resource, List.length_take, Nat.min_eq_left h]
  · intro h
    have hle : l.length ≤ 50 := Nat.le_of_lt h
    simp [recent_activity_resource, List.length_take, Nat.min_eq_right hle,
      List.take_of_length_le hle]

/-- Witness for C6 at the spec's own example: 120 upstream items. -/
theorem recent_activity_truncation_witness :
    recent_activity_resource (.success 200 (.jarr (List.replicate 120 JVal.jnull))) =
      .summary 50 120 (.jarr (List.replicate 50 JVal.jnull)) := by
  have h := (recent_activity_truncation (List.replicate 120 JVal.jnull)).1 (by simp)
  simpa using h

/-- C1 counterexample: status 201 is 2xx, yet the dashboard handler marks
that endpoint `unavailable` (the code compares to 200 exactly), refuting
the claim that every 2xx endpoint yields `status: available`. -/
theorem dashboard_2xx_counterexample :
    is2xx 201 = true ∧
    (dashboard_stats_resource (.success 201 (.jarr [])) (.success 200 (.jarr []))
        (.success 200 (.jarr []))).beacons.status = "unavailable" ∧
    ("unavailable" : String) ≠ "available" :=
  ⟨by decide, rfl, by decide⟩

/-- C1 amended: for every combination of per-endpoint outcomes, each
endpoint's dashboard entry is a function of that endpoint's outcome alone
(one failure never alters the other entries and never aborts the
response), where a 200 list response yields its length and `available`,
a non-200 response yields count "0", `unavailable` and the status code,
and a raised exception yields count "0" and `error`. -/
theorem dashboard_stats_isolation (o1 o2 o3 : EpOutcome) :
    dashboard_stats_resource o1 o2 o3 =
      ⟨endpointStat o1, endpointStat o2, endpointStat o3⟩ ∧
    (∀ l : List JVal, endpointStat (.success 200 (.jarr l)) =
      ⟨toString l.length, "available", none, none⟩) ∧
    (∀ (st : Nat) (d : JVal), st ≠ 200 →
      endpointStat (.success st d) = ⟨"0", "unavailable", some (toString st), none⟩) ∧
    (∀ m : String, endpointStat (.failure m) = ⟨"0", "error", none, some m⟩) := by
  refine ⟨rfl, fun l => rfl, fun st d h => ?_, fun m => rfl⟩
  simp [endpointStat, h]

/-- Witness for C1's amended theorem at a non-200 status. -/
theorem dashboard_stats_isolation_witness :
    endpointStat (.success 404 .jnull) = ⟨"0", "unavailable", some "404", none⟩ :=
  (dashboard_stats_isolation (.failure "x") (.failure "x") (.failure "x")).2.2.1 404
    .jnull (by decide)

/-- C5 counterexample: when the secondary system-information call raises,
the handler-boundary `except` returns the error envelope, not the success
envelope with the field omitted that the claim promises. -/
theorem server_info_exception_counterexample :
    server_info_resource (.resp 200 "10.0.0.1") (.exn "boom") = .exnEnvelope "boom" ∧
    SIResult.exnEnvelope "boom" ≠
      SIResult.envelope "available" "operational" (some "10.0.0.1") none :=
  ⟨rfl, by decide⟩

/-- C5 amended: a non-2xx secondary system-information response leaves the
full success envelope intact with `system_information` omitted, but a
raised secondary exception produces the error envelope instead. -/
theorem server_info_secondary_amended (st st2 : Nat) (t t2 m : String)
    (h : is2xx st2 = false) :
    server_info_resource (.resp st t) (.resp st2 t2) =
      (if st == 200 then SIResult.envelope "available" "operational" (some t) none
       else SIResult.envelope "unknown" "limited" none none) ∧
    server_info_resource (.resp st t) (.exn m) = .exnEnvelope m := by
  have hne : st2 ≠ 200 := by
    have h2 : ¬(200 ≤ st2 ∧ st2 < 300) := by simpa [is2xx] using h
    omega
  constructor
  · simp [server_info_resource, hne]
  · rfl

/-- Witness for C5's amended theorem at a 503 secondary response. -/
theorem server_info_secondary_amended_witness :
    server_info_resource (.resp 200 "ip") (.resp 503 "x") =
      SIResult.envelope "available" "operational" (some "ip") none ∧
    server_info_resource (.resp 200 "ip") (.exn "down") = .exnEnvelope "down" := by
  have h := server_info_secondary_amended 200 503 "ip" "x" "down" (by decide)
  exact ⟨by simpa using h.1, h.2⟩

/-- C2: a non-2xx login response makes `authenticate` fail with the
authentication error carrying the HTTP status and the stripped body text
(or the status exception's own message when the body strips to empty),
leaves the whole session state unchanged, and a subsequent
`get_authenticated_client` still fails as unauthenticated. -/
theorem authenticate_non2xx_fails (s : CSState) (st : Nat) (body excMsg : String)
    (json : List (String × JVal)) (h2 : is2xx st = false) (hu : s.token = none) :
    authenticate s (.response st body excMsg json) =
      (s, Except.error ("Authentication failed with status " ++ toString st ++ ": " ++
        (if pyStrip body = "" then excMsg else pyStrip body))) ∧
    (get_authenticated_client (authenticate s (.response st body excMsg json)).1).2 =
      Except.error notAuthMsg := by
  have h1 : authenticate s (.response st body excMsg json) =
      (s, Except.error ("Authentication failed with status " ++ toString st ++ ": " ++
        (if pyStrip body = "" then excMsg else pyStrip body))) := by
    simp [authenticate, h2]
  refine ⟨h1, ?_⟩
  rw [h1]
  simp [get_authenticated_client, hu]

/-- Witness for C2 at a concrete 401 login rejection. -/
theorem authenticate_non2xx_fails_witness :
    authenticate demoState (.response 401 " denied " "m" []) =
      (demoState, Except.error "Authentication failed with status 401: denied") ∧
    (get_authenticated_client
        (authenticate demoState (.response 401 " denied " "m" [])).1).2 =
      Except.error notAuthMsg := by
  have h := authenticate_non2xx_fails demoState 401 " denied " "m" [] (by decide) rfl
  exact ⟨h.1.trans (by rfl), h.2⟩

/-- C3: once `authenticate` has succeeded, two successive
`get_authenticated_client` calls return the identical shared client and
the second call changes nothing (no construction takes place: the state,
including the fresh-id counter, is untouched). -/
theorem get_authenticated_client_idempotent (s : CSState) (o : AuthOutcome) (tok : JVal)
    (h : (authenticate s o).2 = Except.ok tok) :
    (get_authenticated_client (get_authenticated_client (authenticate s o).1).1).2 =
      (get_authenticated_client (authenticate s o).1).2 ∧
    (get_authenticated_client (get_authenticated_client (authenticate s o).1).1).1 =
      (get_authenticated_client (authenticate s o).1).1 := by
  obtain ⟨hs, hf⟩ := authenticate_ok_inv s o tok h
  rw [hs]
  cases hc : s.client with
  | none => simp [get_authenticated_client, hf, hc]
  | some c => simp [get_authenticated_client, hf, hc]

/-- Witness for C3: a concrete login followed by two client requests. -/
theorem get_authenticated_client_idempotent_witness :
    (get_authenticated_client
        (get_authenticated_client (authenticate demoState demoLogin).1).1).2 =
      (get_authenticated_client (authenticate demoState demoLogin).1).2 ∧
    (get_authenticated_client
        (get_authenticated_client (authenticate demoState demoLogin).1).1).1 =
      (get_authenticated_client (authenticate demoState demoLogin).1).1 :=
  get_authenticated_client_idempotent demoState demoLogin (.jstr "tkn") rfl

/-- C4: after a successful login that returned the string token t (on a
session whose client has not yet been constructed), the client returned
by `get_authenticated_client` carries the Authorization header
`Bearer t` together with `Accept: application/json`, and the base URL,
TLS flag and timeout fixed at construction time. -/
theorem get_authenticated_client_bearer_header (s : CSState) (o : AuthOutcome)
    (t : String) (hok : (authenticate s o).2 = Except.ok (JVal.jstr t))
    (hc : s.client = none) :
    (get_authenticated_client (authenticate s o).1).2 =
      Except.ok ⟨s.nextId, s.base_url, s.verify_tls, s.timeout,
        [("Authorization", "Bearer " ++ t),
         ("User-Agent", USER_AGENT),
         ("Accept", "application/json")]⟩ := by
  obtain ⟨hs, hf⟩ := authenticate_ok_inv s o (JVal.jstr t) hok
  rw [hs]
  simp [get_authenticated_client, hf, hc, authHeaders, JVal.pyFormat]

/-- Witness for C4 at the concrete demo login. -/
theorem get_authenticated_client_bearer_header_witness :
    (get_authenticated_client (authenticate demoState demoLogin).1).2 =
      Except.ok ⟨0, "https://cs.example:50050", true, 30,
        [("Authorization", "Bearer tkn"),
         ("User-Agent", USER_AGENT),
         ("Accept", "application/json")]⟩ :=
  (get_authenticated_client_bearer_header demoState demoLogin "tkn" rfl rfl).trans
    (by rfl)

/-- C9: a 2xx login response whose `access_token` field is present but
falsy (here: any falsy JSON value) is rejected with the same
missing-token error as an absent field, and no credential is stored (the
state is returned unchanged). -/
theorem authenticate_falsy_token_rejected (s : CSState) (st : Nat)
    (body excMsg : String) (json : List (String × JVal)) (v : JVal)
    (h2 : is2xx st = true) (hv : dictGet "access_token" json = some v)
    (hf : v.falsy = true) :
    authenticate s (.response st body excMsg json) =
      (s, Except.error missingTokenMsg) := by
  simp [authenticate, h2, hv, hf]

/-- Witness for C9: a 200 response carrying an empty-string token. -/
theorem authenticate_falsy_token_rejected_witness :
    authenticate demoState (.response 200 "ok" "m" [("access_token", JVal.jstr "")]) =
      (demoState, Except.error missingTokenMsg) :=
  authenticate_falsy_token_rejected demoState 200 "ok" "m"
    [("access_token", JVal.jstr "")] (JVal.jstr "") (by decide) rfl rfl

/-- C10: after a successful `authenticate` (client not yet constructed),
a `get_authenticated_client`, a `close`, and another
`get_authenticated_client`, the second call succeeds and constructs a
fresh client, distinct from the closed one (different identity) but
configured with the same token header, base URL, TLS flag and timeout. -/
theorem client_reconstructed_after_close (s : CSState) (o : AuthOutcome) (tok : JVal)
    (hok : (authenticate s o).2 = Except.ok tok) (hc : s.client = none) :
    (get_authenticated_client (authenticate s o).1).2 =
      Except.ok ⟨s.nextId, s.base_url, s.verify_tls, s.timeout, authHeaders tok⟩ ∧
    (get_authenticated_client
        (close (get_authenticated_client (authenticate s o).1).1)).2 =
      Except.ok ⟨s.nextId + 1, s.base_url, s.verify_tls, s.timeout, authHeaders tok⟩ ∧
    (⟨s.nextId + 1, s.base_url, s.verify_tls, s.timeout, authHeaders tok⟩ : HClient) ≠
      ⟨s.nextId, s.base_url, s.verify_tls, s.timeout, authHeaders tok⟩ := by
  obtain ⟨hs, hf⟩ := authenticate_ok_inv s o tok hok
  rw [hs]
  refine ⟨?_, ?_, ?_⟩
  · simp [get_authenticated_client, hf, hc]
  · simp [get_authenticated_client, close, hf, hc]
  · simp [HClient.mk.injEq]

/-- Witness for C10 at the concrete demo login. -/
theorem client_reconstructed_after_close_witness :
    (get_authenticated_client (authenticate demoState demoLogin).1).2 =
      Except.ok ⟨demoState.nextId, demoState.base_url, demoState.verify_tls,
        demoState.timeout, authHeaders (JVal.jstr "tkn")⟩ ∧
    (get_authenticated_client
        (close (get_authenticated_client (authenticate demoState demoLogin).1).1)).2 =
      Except.ok ⟨demoState.nextId + 1, demoState.base_url, demoState.verify_tls,
        demoState.timeout, authHeaders (JVal.jstr "tkn")⟩ ∧
    (⟨demoState.nextId + 1, demoState.base_url, demoState.verify_tls,
        demoState.timeout, authHeaders (JVal.jstr "tkn")⟩ : HClient) ≠
      ⟨demoState.nextId, demoState.base_url, demoState.verify_tls,
        demoState.timeout, authHeaders (JVal.jstr "tkn")⟩ :=
  client_reconstructed_after_close demoState demoLogin (JVal.jstr "tkn") rfl rfl

/-- `dropWhile` returns a suffix: something can be prepended to recover
the original list. -/
theorem dropWhile_suffix_eq {α : Type} (p : α → Bool) (l : List α) :
    ∃ t, t ++ l.dropWhile p = l := by
  induction l with
  | nil => exact ⟨[], rfl⟩
  | cons a l ih =>
      cases hp : p a with
      | true =>
          obtain ⟨t, ht⟩ := ih
          exact ⟨a :: t, by simp [List.dropWhile_cons, hp, ht]⟩
      | false => exact ⟨[], by simp [List.dropWhile_cons, hp]⟩

/-- Stripping from the right (reverse, `dropWhile`, reverse) leaves an
initial segment of the original list. -/
theorem rstrip_data_append (p : Char → Bool) (l : List Char) :
    ∃ t, (l.reverse.dropWhile p).reverse ++ t = l := by
  obtain ⟨t, ht⟩ := dropWhile_suffix_eq p l.reverse
  refine ⟨t.reverse, ?_⟩
  have h2 := congrArg List.reverse ht
  simpa [List.reverse_append] using h2

/-- The head surviving a `dropWhile` does not satisfy the predicate. -/
theorem dropWhile_head_false {α : Type} (p : α → Bool) (l : List α) (c : α)
    (cs : List α) (h : l.dropWhile p = c :: cs) : p c = false := by
  induction l with
  | nil => simp [List.dropWhile] at h
  | cons a l ih =>
      rw [List.dropWhile_cons] at h
      cases hp : p a with
      | true => rw [hp] at h; simp at h; exact ih h
      | false => rw [hp] at h; simp at h; rw [← h.1]; exact hp

/-- Whatever the input, prefixing a slash when one is missing yields a
character list headed by a slash. -/
theorem slash_prefixed_data (path : String) :
    ∃ r, (if startsWithSlash path then path else "/" ++ path).data = '/' :: r := by
  by_cases hsw : startsWithSlash path
  · rw [if_pos hsw]
    unfold startsWithSlash at hsw
    cases hd : path.data with
    | nil => rw [hd] at hsw; simp at hsw
    | cons c r =>
        rw [hd] at hsw
        simp at hsw
        exact ⟨r, by rw [hsw]⟩
  · rw [if_neg hsw]
    exact ⟨path.data, by rw [String.data_append]; rfl⟩

/-- C7: `run`'s path normalization always produces a leading-slash,
no-trailing-slash path, with the root collapsing to `/`; in particular
`mcp` maps to `/mcp`, `/mcp/` maps to `/mcp`, and `/` maps to `/`. -/
theorem run_path_normalization (path : String) :
    startsWithSlash (normalizePath path) = true ∧
    (normalizePath path = "/" ∨ endsWithSlash (normalizePath path) = false) ∧
    normalizePath "mcp" = "/mcp" ∧ normalizePath "/mcp/" = "/mcp" ∧
    normalizePath "/" = "/" := by
  have hcore : startsWithSlash (normalizePath path) = true ∧
      (normalizePath path = "/" ∨ endsWithSlash (normalizePath path) = false) := ?_
  case _ => exact ⟨hcore.1, hcore.2, by rfl, by rfl, by rfl⟩
  obtain ⟨r, hpd⟩ := slash_prefixed_data path
  rw [show normalizePath path =
    (if rstripSlash (if startsWithSlash path then path else "/" ++ path) = "" then "/"
     else rstripSlash (if startsWithSlash path then path else "/" ++ path)) from rfl]
  generalize hP : (if startsWithSlash path then path else "/" ++ path) = P at hpd ⊢
  by_cases hq : rstripSlash P = ""
  · rw [if_pos hq]
    exact ⟨by rfl, Or.inl rfl⟩
  · rw [if_neg hq]
    have hdata : (rstripSlash P).data =
        (P.data.reverse.dropWhile (fun c => c == '/')).reverse := rfl
    cases hd : (rstripSlash P).data with
    | nil => exact absurd (String.ext (hd.trans rfl)) hq
    | cons c cs =>
        constructor
        · obtain ⟨t, ht⟩ := rstrip_data_append (fun c => c == '/') P.data
          have ht2 : (rstripSlash P).data ++ t = P.data := ht
          rw [hd, hpd] at ht2
          simp at ht2
          unfold startsWithSlash
          rw [hd, ht2.1]
          rfl
        · refine Or.inr ?_
          have hrev : (rstripSlash P).data.reverse =
              P.data.reverse.dropWhile (fun c => c == '/') := by
            rw [hdata, List.reverse_reverse]
          cases hr2 : (rstripSlash P).data.reverse with
          | nil => rw [hd] at hr2; simp at hr2
          | cons c2 cs2 =>
              have hc2 : (fun c => c == '/') c2 = false :=
                dropWhile_head_false _ _ c2 cs2 (by rw [← hrev, hr2])
              unfold endsWithSlash
              rw [hr2]
              simpa using hc2
